import Mathlib

/-!
Shallow embedding of the Instagram-Farm upload pipeline and its persistence
layer, translated from the Python sources:

* services/task_service.py   - the task record store (table task_logs)
* modules/database.py        - publicationhistory and videos tables
* modules/downloader.py      - download_video
* modules/tasks.py           - process_video_with_progress (the orchestrator)
* modules/fetcher.py         - FanAccountFetcher.fetch_videos_from_account
* services/proxy_monitoring_service.py - check_all_proxies

SQL tables are modelled as lists of rows; timestamps as a logical clock
(a natural number threaded through the state); Python truthiness of an
optional integer is made explicit.  Machine floats in the progress formula
are modelled by exact natural-number division, which is the intended
floor semantics of the source expression int((i / total) * 100).
-/

/-- Python truthiness of an optional integer argument: None and 0 are falsy. -/
def optNatTruthy : Option Nat → Bool
  | none => false
  | some n => n != 0

/-- A row of the task_logs table (created in services/task_service.py).
created_at and next_action_at are logical timestamps. -/
structure TaskRecord where
  id : String
  task_type : String
  status : String
  account_username : Option String
  message : Option String
  progress : Nat
  total_items : Nat
  current_item : Option String
  next_action_at : Option Nat
  cooldown_seconds : Option Nat
  created_at : Nat
deriving Repr, DecidableEq

/-- The task_logs table; id is the PRIMARY KEY. -/
abbrev TaskStore := List TaskRecord

/-- SELECT ... FROM task_logs WHERE id = ? (first matching row). -/
def lookupTask (store : TaskStore) (task_id : String) : Option TaskRecord :=
  store.find? (fun r => r.id == task_id)

namespace TaskService

/-- The terminal statuses recognised by update_task_status. -/
def terminalStatuses : List String := ["success", "failed", "cancelled"]

/-- TaskService.log_task: INSERT OR REPLACE INTO task_logs.  SQLite REPLACE
deletes every row conflicting on the primary key and inserts the new row;
no error is raised for an existing id.  next_action_at is set only when a
truthy cooldown is supplied together with status "running". -/
def log_task (store : TaskStore) (now : Nat) (task_id task_type status : String)
    (account_username : Option String) (message : Option String)
    (progress : Option Nat) (total_items : Option Nat)
    (current_item : Option String) (cooldown_seconds : Option Nat) : TaskStore :=
  let next_action_at : Option Nat :=
    if optNatTruthy cooldown_seconds && (status == "running") then
      cooldown_seconds.map (fun c => now + c)
    else none
  let row : TaskRecord :=
    { id := task_id, task_type := task_type, status := status,
      account_username := account_username, message := message,
      progress := progress.getD 0, total_items := total_items.getD 0,
      current_item := current_item, next_action_at := next_action_at,
      cooldown_seconds := cooldown_seconds, created_at := now }
  store.filter (fun r => r.id != task_id) ++ [row]

/-- TaskService.update_task_progress: UPDATE task_logs SET progress,
current_item, message, next_action_at, cooldown_seconds, created_at
WHERE id = ?.  There is no guard on the row's current status. -/
def update_task_progress (store : TaskStore) (now : Nat) (task_id : String)
    (progress : Nat) (current_item : String) (message : Option String)
    (cooldown_seconds : Option Nat) : TaskStore :=
  let next_action_at : Option Nat :=
    if optNatTruthy cooldown_seconds then cooldown_seconds.map (fun c => now + c)
    else none
  store.map (fun r =>
    if r.id == task_id then
      { r with progress := progress, current_item := some current_item,
               message := message, next_action_at := next_action_at,
               cooldown_seconds := cooldown_seconds, created_at := now }
    else r)

/-- TaskService.update_task_status: for a terminal status the row's
next_action_at and cooldown_seconds are set to NULL and progress is kept
when the old status was "running" (otherwise forced to 100); for a
non-terminal status only status, message and created_at change. -/
def update_task_status (store : TaskStore) (now : Nat) (task_id status : String)
    (message : Option String) : TaskStore :=
  store.map (fun r =>
    if r.id == task_id then
      if terminalStatuses.contains status then
        { r with status := status, message := message, next_action_at := none,
                 cooldown_seconds := none, created_at := now,
                 progress := if r.status == "running" then r.progress else 100 }
      else
        { r with status := status, message := message, created_at := now }
    else r)

/-- TaskService.get_task_progress: SELECT the row WHERE id = ?. -/
def get_task_progress (store : TaskStore) (task_id : String) : Option TaskRecord :=
  lookupTask store task_id

end TaskService

/-! Generic lookup lemmas for the store operations. -/

theorem lookupTask_map_update (store : TaskStore) (task_id : String)
    (f : TaskRecord → TaskRecord) (hf : ∀ r, (f r).id = r.id) :
    lookupTask (store.map (fun r => if r.id == task_id then f r else r)) task_id
      = (lookupTask store task_id).map f := by
  induction store with
  | nil => rfl
  | cons h t ih =>
    by_cases hid : h.id == task_id
    · simp only [lookupTask, List.map_cons, List.find?_cons, hid, if_pos hid]
      have : ((f h).id == task_id) = true := by
        rw [hf h]; exact hid
      simp [this, hid]
    · simp only [lookupTask, List.map_cons, List.find?_cons, if_neg hid]
      simp only [hid, cond_false]
      exact ih

theorem lookupTask_append_single (store : TaskStore) (row : TaskRecord)
    (task_id : String) (h : row.id = task_id) :
    lookupTask (store.filter (fun r => r.id != task_id) ++ [row]) task_id = some row := by
  induction store with
  | nil => simp [lookupTask, List.find?, h]
  | cons hd t ih =>
    by_cases hid : hd.id = task_id
    · simpa [lookupTask, List.filter, hid] using ih
    · have hne : (hd.id != task_id) = true := by
        simp [bne, hid]
      have hne2 : (hd.id == task_id) = false := by
        simp [hid]
      simp only [lookupTask, List.filter, hne, List.cons_append, List.find?_cons, hne2,
        cond_false]
      exact ih

/-- Effect of update_task_progress on the row it addresses. -/
theorem lookupTask_update_task_progress (store : TaskStore) (now : Nat)
    (task_id : String) (progress : Nat) (current_item : String)
    (message : Option String) (cooldown_seconds : Option Nat) :
    lookupTask (TaskService.update_task_progress store now task_id progress
        current_item message cooldown_seconds) task_id
      = (lookupTask store task_id).map (fun r =>
          { r with progress := progress, current_item := some current_item,
                   message := message,
                   next_action_at := (if optNatTruthy cooldown_seconds then
                     cooldown_seconds.map (fun c => now + c) else none),
                   cooldown_seconds := cooldown_seconds, created_at := now }) := by
  have h := lookupTask_map_update store task_id
    (fun r =>
      { r with progress := progress, current_item := some current_item,
               message := message,
               next_action_at := (if optNatTruthy cooldown_seconds then
                 cooldown_seconds.map (fun c => now + c) else none),
               cooldown_seconds := cooldown_seconds, created_at := now })
    (fun _ => rfl)
  simpa [TaskService.update_task_progress] using h

/-- Effect of update_task_status on the row it addresses. -/
theorem lookupTask_update_task_status (store : TaskStore) (now : Nat)
    (task_id status : String) (message : Option String) :
    lookupTask (TaskService.update_task_status store now task_id status message)
        task_id
      = (lookupTask store task_id).map (fun r =>
          if TaskService.terminalStatuses.contains status then
            { r with status := status, message := message, next_action_at := none,
                     cooldown_seconds := none, created_at := now,
                     progress := (if r.status == "running" then r.progress else 100) }
          else
            { r with status := status, message := message, created_at := now }) := by
  have h := lookupTask_map_update store task_id
    (fun r =>
      if TaskService.terminalStatuses.contains status then
        { r with status := status, message := message, next_action_at := none,
                 cooldown_seconds := none, created_at := now,
                 progress := (if r.status == "running" then r.progress else 100) }
      else
        { r with status := status, message := message, created_at := now })
    (fun r => by split <;> rfl)
  simpa [TaskService.update_task_status] using h

/-- After log_task, looking up the given id always yields the freshly built
row; it never raises and never keeps the previous row. -/
theorem lookupTask_log_task (store : TaskStore) (now : Nat)
    (task_id task_type status : String) (account_username message : Option String)
    (progress total_items : Option Nat) (current_item : Option String)
    (cooldown_seconds : Option Nat) :
    ∃ r : TaskRecord,
      lookupTask (TaskService.log_task store now task_id task_type status
        account_username message progress total_items current_item cooldown_seconds)
          task_id = some r ∧
      r.id = task_id ∧ r.task_type = task_type ∧ r.status = status ∧
      r.account_username = account_username ∧ r.message = message ∧
      r.progress = progress.getD 0 ∧ r.total_items = total_items.getD 0 ∧
      r.current_item = current_item ∧ r.cooldown_seconds = cooldown_seconds ∧
      r.created_at = now := by
  have h := lookupTask_append_single store
    { id := task_id, task_type := task_type, status := status,
      account_username := account_username, message := message,
      progress := progress.getD 0, total_items := total_items.getD 0,
      current_item := current_item,
      next_action_at := if optNatTruthy cooldown_seconds && (status == "running")
        then cooldown_seconds.map (fun c => now + c) else none,
      cooldown_seconds := cooldown_seconds, created_at := now } task_id rfl
  exact ⟨_, h, rfl, rfl, rfl, rfl, rfl, rfl, rfl, rfl, rfl, rfl⟩

/-! The database tables touched by the upload pipeline (modules/database.py). -/

/-- The publicationhistory and videos tables.  Both inserts in the source use
INSERT OR IGNORE on the listed key columns, so rows are unique. -/
structure DbState where
  publicationhistory : List (String × String)
  videos : List (String × String)
deriving Repr, DecidableEq

/-- record_publication: INSERT OR IGNORE INTO publicationhistory
(account_username, video_link). -/
def record_publication (username video_link : String) (db : DbState) : DbState :=
  if (username, video_link) ∈ db.publicationhistory then db
  else { db with publicationhistory := db.publicationhistory ++ [(username, video_link)] }

/-- is_video_published: SELECT 1 FROM publicationhistory WHERE
account_username = ? AND video_link = ?. -/
def is_video_published (username video_link : String) (db : DbState) : Bool :=
  decide ((username, video_link) ∈ db.publicationhistory)

/-- record_video: INSERT OR IGNORE INTO videos (link, theme). -/
def record_video (video_link theme : String) (db : DbState) : DbState :=
  if (video_link, theme) ∈ db.videos then db
  else { db with videos := db.videos ++ [(video_link, theme)] }

/-- get_existing_video_links_for_theme: SELECT link FROM videos WHERE theme = ?. -/
def get_existing_video_links_for_theme (theme : String) (db : DbState) : List String :=
  (db.videos.filter (fun p => p.2 == theme)).map (fun p => p.1)

/-! The local filesystem and download_video (modules/downloader.py). -/

/-- The worker's local disk: a path together with the size of the file there. -/
abbrev FileSystem := List (String × Nat)

/-- Writing a file replaces whatever was at that path. -/
def fsWrite (path : String) (size : Nat) (fs : FileSystem) : FileSystem :=
  fs.filter (fun p => p.1 != path) ++ [(path, size)]

/-- os.remove wrapped in try/except: removes the file when present. -/
def fsRemove (path : String) (fs : FileSystem) : FileSystem :=
  fs.filter (fun p => p.1 != path)

/-- os.path.exists. -/
def fsHasFile (path : String) (fs : FileSystem) : Bool :=
  fs.any (fun p => p.1 == path)

/-- What one call of download_video leaves on disk: the request can fail
before the output file is opened, abort mid-stream leaving the bytes written
so far, or run to completion leaving a file of the final size (possibly 0). -/
inductive DlOutcome where
  | preOpenError
  | midStreamError (written : Nat)
  | complete (size : Nat)
deriving Repr, DecidableEq

/-- download_video: streams the response into output_path and returns true
iff the file exists afterwards with positive size.  No branch of the source
removes the file it wrote, so an empty or aborted download leaves it behind. -/
def download_video (outcome : DlOutcome) (output_path : String) (fs : FileSystem) :
    Bool × FileSystem :=
  match outcome with
  | .preOpenError => (false, fs)
  | .midStreamError written => (false, fsWrite output_path written fs)
  | .complete size => (decide (0 < size), fsWrite output_path size fs)

/-! The orchestrator process_video_with_progress (modules/tasks.py). -/

/-- Externally visible actions of the worker.  statusWrite records every
write that sets the status column of the task row (the initial log_task
insert and each update_task_status call). -/
inductive Event where
  | publishCall (username video : String)
  | notify (msg : String)
  | sleep (seconds : Nat)
  | statusWrite (status : String)
deriving Repr, DecidableEq

/-- Whether the event is an invocation of upload_video_to_instagram. -/
def Event.isPublish : Event → Bool
  | .publishCall _ _ => true
  | _ => false

/-- Whether the event writes a terminal status into the task row. -/
def Event.isTerminalWrite : Event → Bool
  | .statusWrite s => TaskService.terminalStatuses.contains s
  | _ => false

/-- The collaborators and random draws of one run, resolved per item index
(1-based), plus the external-cancellation oracle: extCancel k says whether
the cancel endpoint's update_task_status(..., cancelled) write has landed in
the store by the time of the worker's k-th status poll. -/
structure UploadEnv where
  hashName : String → String
  get_download_link : Nat → Option String
  dl : Nat → DlOutcome
  upload_ok : Nat → Bool
  cooldown : Nat → Nat
  extCancel : Nat → Bool

/-- The mutable world of one worker: database, local disk, task store, the
number of status polls made so far, and a logical clock. -/
structure WorkerState where
  db : DbState
  fs : FileSystem
  store : TaskStore
  polls : Nat
  now : Nat
deriving Repr, DecidableEq

/-- The output_path built from the md5 of username_video (line 177-178);
the digest itself is opaque and supplied by the environment. -/
def outputPath (env : UploadEnv) (username video : String) : String :=
  "./videos/" ++ env.hashName (username ++ "_" ++ video) ++ ".mp4"

/-- Progress percent int((current / total) * 100) if total > 0 else 0,
with the float expression modelled as exact floor division. -/
def progressPercent (current total : Nat) : Nat :=
  if total > 0 then current * 100 / total else 0

namespace ProgressTask

/-- ProgressTask.check_if_cancelled: reads the task row from the store and
reports whether its status is cancelled.  The concurrent cancel endpoint is
modelled by first applying its update_task_status write when the oracle says
it has landed by this poll. -/
def check_if_cancelled (extCancel : Nat → Bool) (taskId : String) (k now : Nat)
    (store : TaskStore) : Bool × TaskStore :=
  let store' := if extCancel k then
      TaskService.update_task_status store now taskId "cancelled"
        (some "Task cancelled by user")
    else store
  (match lookupTask store' taskId with
   | some r => r.status == "cancelled"
   | none => false, store')

/-- ProgressTask.update_progress: computes the percent, builds the message
with a cooldown suffix only for a truthy cooldown, and writes through
TaskService.update_task_progress. -/
def update_progress (taskId : String) (st : WorkerState)
    (current total : Nat) (current_item : String) (cooldown : Option Nat) :
    WorkerState :=
  let pct := progressPercent current total
  let c := cooldown.getD 0
  let message := s!"Processing {current}/{total}: {current_item}" ++
    (if optNatTruthy cooldown then s!" (Next in {c}s)" else "")
  { st with store := (TaskService.update_task_progress st.store st.now taskId
      pct current_item (some message) cooldown) }

end ProgressTask

/-- Result of processing one list item (one iteration of the for-loop of
process_video_with_progress): the new world, the emitted events, whether the
iteration raised Ignore after a cancellation, and how much it added to
success_count and failed_count. -/
structure StepResult where
  st : WorkerState
  events : List Event
  cancelled : Bool
  succInc : Nat
  failInc : Nat
deriving Repr, DecidableEq

/-- The cooldown wait loop (lines 250-268): poll cancellation, sleep
min(10, remaining), subtract, republish the remaining seconds while any are
left.  The loop runs one iteration per tick, so it is written with an exact
tick budget as the recursion measure; cooldownLoop below instantiates the
budget with the precise number of ticks, which never runs out. -/
def cooldownLoopAux (env : UploadEnv) (taskId username : String) (i total : Nat) :
    Nat → Nat → WorkerState → WorkerState × List Event × Bool
  | 0, _remaining, st => (st, [], false)
  | _fuel + 1, 0, st => (st, [], false)
  | fuel + 1, remaining + 1, st =>
    let p := ProgressTask.check_if_cancelled env.extCancel taskId st.polls st.now st.store
    let st1 : WorkerState := { st with store := p.2, polls := st.polls + 1 }
    if p.1 then
      (st1, [Event.notify s!"Upload task cancelled for @{username} during cooldown"], true)
    else
      let wait := min 10 (remaining + 1)
      let st2 : WorkerState := { st1 with now := st1.now + wait }
      let left := remaining + 1 - wait
      let st3 := if 0 < left then
          ProgressTask.update_progress taskId st2 i total
            s!"Video {i} uploaded - Cooldown remaining: {left}s" (some left)
        else st2
      let r := cooldownLoopAux env taskId username i total fuel left st3
      (r.1, Event.sleep wait :: r.2.1, r.2.2)

/-- The cooldown wait loop entered with the drawn cooldown in seconds. -/
def cooldownLoop (env : UploadEnv) (taskId username : String) (i total : Nat)
    (remaining : Nat) (st : WorkerState) : WorkerState × List Event × Bool :=
  cooldownLoopAux env taskId username i total ((remaining + 9) / 10) remaining st

/-- One iteration of the for-loop of process_video_with_progress
(lines 130-301), for the 1-based item i of total. -/
def processOneVideo (env : UploadEnv) (taskId username : String) (i total : Nat)
    (video : String) (st : WorkerState) : StepResult :=
  -- lines 132-135: cancellation check at the start of each video
  let p1 := ProgressTask.check_if_cancelled env.extCancel taskId st.polls st.now st.store
  let st1 : WorkerState := { st with store := p1.2, polls := st.polls + 1 }
  if p1.1 then
    { st := st1, events := [Event.notify s!"Upload task cancelled for @{username}"],
      cancelled := true, succInc := 0, failInc := 0 }
  else
    -- line 141: progress update before the dedup check
    let st2 := ProgressTask.update_progress taskId st1 i total
      s!"Checking if Video {i} was already posted" none
    -- lines 144-151: idempotency check against publicationhistory
    if is_video_published username video st2.db then
      let st3 : WorkerState := { st2 with store := (TaskService.update_task_progress
        st2.store st2.now taskId (i * 100 / total)
        s!"Video {i} - Already posted, skipping"
        (some s!"Skipped Video {i} (already posted)") none) }
      { st := st3, events := [], cancelled := false, succInc := 0, failInc := 0 }
    else
      -- lines 154-157: cancellation check before the download
      let p2 := ProgressTask.check_if_cancelled env.extCancel taskId st2.polls st2.now st2.store
      let st3 : WorkerState := { st2 with store := p2.2, polls := st2.polls + 1 }
      if p2.1 then
        { st := st3, events := [Event.notify s!"Upload task cancelled for @{username}"],
          cancelled := true, succInc := 0, failInc := 0 }
      else
        let st4 := ProgressTask.update_progress taskId st3 i total
          s!"Getting download link for Video {i}" none
        -- lines 162-172: resolve the download link
        match env.get_download_link i with
        | none =>
          let st5 : WorkerState := { st4 with store := (TaskService.update_task_progress
            st4.store st4.now taskId (i * 100 / total)
            s!"Video {i} - Failed to get download link"
            (some s!"Failed to get download link for Video {i}") none) }
          { st := st5, events := [Event.notify s!"Failed to get download link: {video}"],
            cancelled := false, succInc := 0, failInc := 1 }
        | some _url =>
          let st5 := ProgressTask.update_progress taskId st4 i total
            s!"Downloading Video {i}" none
          let path := outputPath env username video
          -- lines 177-190: download and verify
          let dlres := download_video (env.dl i) path st5.fs
          let st6 : WorkerState := { st5 with fs := dlres.2 }
          if !dlres.1 then
            let st7 : WorkerState := { st6 with store := (TaskService.update_task_progress
              st6.store st6.now taskId (i * 100 / total)
              s!"Video {i} - Download failed"
              (some s!"Failed to download Video {i}") none) }
            { st := st7, events := [Event.notify s!"Failed to download: {video}"],
              cancelled := false, succInc := 0, failInc := 1 }
          else
            -- lines 193-201: cancellation check before the upload, with cleanup
            let p3 := ProgressTask.check_if_cancelled env.extCancel taskId st6.polls
              st6.now st6.store
            let st7 : WorkerState := { st6 with store := p3.2, polls := st6.polls + 1 }
            if p3.1 then
              let st8 : WorkerState := { st7 with fs := fsRemove path st7.fs }
              { st := st8,
                events := [Event.notify s!"Upload task cancelled for @{username}"],
                cancelled := true, succInc := 0, failInc := 0 }
            else
              let st8 := ProgressTask.update_progress taskId st7 i total
                s!"Uploading Video {i} to Instagram" none
              -- lines 209-210: the publish collaborator
              if env.upload_ok i then
                -- line 216: cooldown drawn only when more items remain
                let cooldown := if i < total then env.cooldown i else 0
                let st9 := if 0 < cooldown then
                    ProgressTask.update_progress taskId st8 i total
                      s!"Video {i} uploaded successfully - Waiting {cooldown}s cooldown"
                      (some cooldown)
                  else
                    ProgressTask.update_progress taskId st8 i total
                      s!"Video {i} uploaded successfully - All done!" (some 0)
                -- line 233: record the publication
                let st10 : WorkerState := { st9 with
                  db := record_publication username video st9.db }
                -- line 237: remove the uploaded file
                let st11 : WorkerState := { st10 with fs := fsRemove path st10.fs }
                let evs := [Event.publishCall username video,
                  Event.notify s!"Successfully uploaded Video {i} to @{username}"]
                -- lines 250-268: cooldown wait with cancellation polling
                if 0 < cooldown then
                  let r := cooldownLoop env taskId username i total cooldown st11
                  { st := r.1, events := evs ++ r.2.1, cancelled := r.2.2,
                    succInc := 1, failInc := 0 }
                else
                  { st := st11, events := evs, cancelled := false,
                    succInc := 1, failInc := 0 }
              else
                -- lines 270-284: failed upload, record failure, remove the file
                let st9 : WorkerState := { st8 with store := (TaskService.update_task_progress
                  st8.store st8.now taskId (i * 100 / total)
                  s!"Video {i} - Upload failed"
                  (some s!"Failed to upload Video {i}") none) }
                let st10 : WorkerState := { st9 with fs := fsRemove path st9.fs }
                { st := st10,
                  events := [Event.publishCall username video,
                    Event.notify s!"Failed to upload Video {i} to @{username}"],
                  cancelled := false, succInc := 0, failInc := 1 }

/-- The outcome of one whole run of process_video_with_progress. -/
structure RunResult where
  st : WorkerState
  events : List Event
  successCount : Nat
  failedCount : Nat
  cancelled : Bool
deriving Repr, DecidableEq

/-- The for-loop of process_video_with_progress over the remaining items;
i is the 1-based index of the first of them.  A cancelled iteration raises
Ignore, which aborts the loop before any terminal status write. -/
def runVideos (env : UploadEnv) (taskId username : String) (total : Nat) :
    List String → Nat → Nat → Nat → WorkerState → RunResult
  | [], _i, succ, failed, st =>
    { st := st, events := [], successCount := succ, failedCount := failed,
      cancelled := false }
  | video :: rest, i, succ, failed, st =>
    let r := processOneVideo env taskId username i total video st
    if r.cancelled then
      { st := r.st, events := r.events, successCount := succ + r.succInc,
        failedCount := failed + r.failInc, cancelled := true }
    else
      let rr := runVideos env taskId username total rest (i + 1)
        (succ + r.succInc) (failed + r.failInc) r.st
      { rr with events := r.events ++ rr.events }

/-- process_video_with_progress (lines 101-319): insert the running task row,
walk the list, and - unless cancellation aborted the loop - write the single
terminal status, success iff at least one video was uploaded. -/
def process_video_with_progress (env : UploadEnv) (taskId username : String)
    (videos : List String) (st0 : WorkerState) : RunResult :=
  let total := videos.length
  let st1 : WorkerState := { st0 with store := (TaskService.log_task st0.store st0.now
    taskId "upload" "running" (some username)
    (some s!"Starting upload of {total} videos to @{username}")
    (some 0) (some total) none none) }
  let r := runVideos env taskId username total videos 1 0 0 st1
  if r.cancelled then
    { r with events := Event.statusWrite "running" :: r.events }
  else
    let finalStatus := if 0 < r.successCount then "success" else "failed"
    let finalMsg := s!"Upload task completed for @{username}: {r.successCount} successful, {r.failedCount} failed out of {total} total"
    { r with
      st := { r.st with store := (TaskService.update_task_status r.st.store r.st.now
        taskId finalStatus (some finalMsg)) },
      events := Event.statusWrite "running" :: r.events ++
        [Event.statusWrite finalStatus, Event.notify finalMsg] }

/-! Claim C6: behaviour of task creation on an existing identifier. -/

/-- A terminal task row used to exhibit the replacement behaviour of log_task. -/
def c6_old : TaskRecord :=
  { id := "t1", task_type := "upload", status := "success",
    account_username := some "alice", message := some "done", progress := 100,
    total_items := 3, current_item := none, next_action_at := none,
    cooldown_seconds := none, created_at := 5 }

/-- C6 counterexample: calling log_task with an identifier that already exists
does not leave the existing record unchanged (and raises no error): the row is
silently replaced, so the claimed DuplicateTaskError behaviour is false. -/
theorem log_task_existing_id_not_unchanged :
    lookupTask (TaskService.log_task [c6_old] 9 "t1" "upload" "running"
      (some "alice") (some "restarted") (some 0) (some 3) none none) "t1"
      ≠ some c6_old := by
  decide

/-- C6 (amended): when the identifier already exists in the store, log_task
still succeeds and replaces the stored row with one built from the new call's
arguments (INSERT OR REPLACE semantics), rather than failing with a
DuplicateTaskError or keeping the old row. -/
theorem log_task_replaces_existing_row (store : TaskStore) (now : Nat)
    (task_id task_type status : String) (account_username message : Option String)
    (progress total_items : Option Nat) (current_item : Option String)
    (cooldown_seconds : Option Nat) (old : TaskRecord)
    (h_ex : lookupTask store task_id = some old) :
    ∃ r : TaskRecord,
      lookupTask (TaskService.log_task store now task_id task_type status
        account_username message progress total_items current_item cooldown_seconds)
          task_id = some r ∧
      r.task_type = task_type ∧ r.status = status ∧
      r.account_username = account_username ∧ r.message = message ∧
      r.progress = progress.getD 0 ∧ r.total_items = total_items.getD 0 ∧
      r.created_at = now := by
  obtain ⟨r, hr, -, h2, h3, h4, h5, h6, h7, -, -, h8⟩ :=
    lookupTask_log_task store now task_id task_type status account_username message
      progress total_items current_item cooldown_seconds
  exact ⟨r, hr, h2, h3, h4, h5, h6, h7, h8⟩

/-- Witness for C6: the replacement theorem applied to a concrete store that
already holds the identifier. -/
theorem log_task_replaces_existing_row_witness :
    lookupTask [c6_old] "t1" = some c6_old ∧
    ∃ r : TaskRecord,
      lookupTask (TaskService.log_task [c6_old] 9 "t1" "upload" "running"
        (some "alice") (some "restarted") (some 0) (some 3) none none) "t1" = some r ∧
      r.task_type = "upload" ∧ r.status = "running" ∧
      r.account_username = some "alice" ∧ r.message = some "restarted" ∧
      r.progress = (some 0).getD 0 ∧ r.total_items = (some 3).getD 0 ∧
      r.created_at = 9 :=
  ⟨by decide,
   log_task_replaces_existing_row [c6_old] 9 "t1" "upload" "running"
     (some "alice") (some "restarted") (some 0) (some 3) none none c6_old (by decide)⟩

/-! Claim C7: updates on a task whose status is terminal. -/

/-- A task row already in the terminal status success. -/
def c7_done : TaskRecord :=
  { id := "t1", task_type := "upload", status := "success",
    account_username := some "alice", message := some "done", progress := 100,
    total_items := 3, current_item := some "Video 3", next_action_at := none,
    cooldown_seconds := none, created_at := 5 }

/-- C7 counterexample: update_task_progress on a terminal task is not a no-op;
the fields of the terminal row change, refuting the claimed invariant. -/
theorem update_on_terminal_not_noop :
    TaskService.update_task_progress [c7_done] 9 "t1" 55 "item" (some "m") none
      ≠ [c7_done] := by
  decide

/-- C7 (amended): an update operation on a terminal task still succeeds, but
it is not a no-op: update_task_progress has no guard on the row's status and
overwrites progress, current_item, message, next_action_at, cooldown_seconds
and created_at unconditionally. -/
theorem update_task_progress_overwrites_terminal (store : TaskStore) (now : Nat)
    (task_id : String) (progress : Nat) (current_item : String)
    (message : Option String) (cooldown_seconds : Option Nat) (r : TaskRecord)
    (h_ex : lookupTask store task_id = some r)
    (h_term : TaskService.terminalStatuses.contains r.status = true) :
    lookupTask (TaskService.update_task_progress store now task_id progress
        current_item message cooldown_seconds) task_id =
      some { r with progress := progress, current_item := some current_item,
                    message := message,
                    next_action_at := (if optNatTruthy cooldown_seconds then
                      cooldown_seconds.map (fun c => now + c) else none),
                    cooldown_seconds := cooldown_seconds, created_at := now } := by
  rw [lookupTask_update_task_progress, h_ex]
  rfl

/-- Witness for C7: the overwrite theorem applied to a concrete terminal row. -/
theorem update_task_progress_overwrites_terminal_witness :
    lookupTask [c7_done] "t1" = some c7_done ∧
    TaskService.terminalStatuses.contains c7_done.status = true ∧
    lookupTask (TaskService.update_task_progress [c7_done] 9 "t1" 55 "item"
        (some "m") none) "t1" =
      some { c7_done with progress := 55, current_item := some "item",
                          message := some "m",
                          next_action_at := (if optNatTruthy none then
                            (none : Option Nat).map (fun c => 9 + c) else none),
                          cooldown_seconds := none, created_at := 9 } :=
  ⟨by decide, by decide,
   update_task_progress_overwrites_terminal [c7_done] 9 "t1" 55 "item" (some "m")
     none c7_done (by decide) (by decide)⟩

/-! The fetch dedup step (modules/fetcher.py lines 107-122). -/

/-- The filter loop of fetch_videos_from_account: the known-link set is
snapshotted once before the loop; every resolved url not in the snapshot is
returned and recorded through record_video. -/
def fetchFilterLoop (existing : List String) (theme : String) :
    List String → DbState → List String × DbState
  | [], db => ([], db)
  | url :: rest, db =>
    if url ∈ existing then fetchFilterLoop existing theme rest db
    else
      let db' := record_video url theme db
      let r := fetchFilterLoop existing theme rest db'
      (url :: r.1, r.2)

/-- FanAccountFetcher.fetch_videos_from_account, from the point where the
platform has resolved the list of video urls: filter against the theme's
known links and record each new one. -/
def fetch_videos_from_account (resolved : List String) (theme : String)
    (db : DbState) : List String × DbState :=
  fetchFilterLoop (get_existing_video_links_for_theme theme db) theme resolved db

theorem mem_existing_links (url theme : String) (db : DbState) :
    url ∈ get_existing_video_links_for_theme theme db ↔ (url, theme) ∈ db.videos := by
  unfold get_existing_video_links_for_theme
  constructor
  · intro h
    obtain ⟨p, hp, hurl⟩ := List.mem_map.mp h
    have hm := List.mem_filter.mp hp
    have ht : p.2 = theme := by simpa using hm.2
    have : p = (url, theme) := by
      cases p
      simp only at hurl ht
      rw [hurl, ht]
    rw [← this]
    exact hm.1
  · intro h
    refine List.mem_map.mpr ⟨(url, theme), List.mem_filter.mpr ⟨h, by simp⟩, rfl⟩

theorem record_video_mono (l t url theme : String) (db : DbState)
    (h : (l, t) ∈ db.videos) : (l, t) ∈ (record_video url theme db).videos := by
  unfold record_video
  split
  · exact h
  · exact List.mem_append_left _ h

theorem record_video_self (url theme : String) (db : DbState) :
    (url, theme) ∈ (record_video url theme db).videos := by
  unfold record_video
  split
  · assumption
  · exact List.mem_append_right _ (by simp)

theorem fetchFilterLoop_mono (existing : List String) (theme l t : String)
    (resolved : List String) (db : DbState) (h : (l, t) ∈ db.videos) :
    (l, t) ∈ (fetchFilterLoop existing theme resolved db).2.videos := by
  induction resolved generalizing db with
  | nil => exact h
  | cons url rest ih =>
    unfold fetchFilterLoop
    split
    · exact ih db h
    · exact ih (record_video url theme db) (record_video_mono l t url theme db h)

theorem fetchFilterLoop_covers (existing : List String) (theme : String)
    (resolved : List String) (db : DbState)
    (hex : ∀ u ∈ existing, (u, theme) ∈ db.videos) :
    ∀ url ∈ resolved, (url, theme) ∈ (fetchFilterLoop existing theme resolved db).2.videos := by
  induction resolved generalizing db with
  | nil => intro url hu; cases hu
  | cons v rest ih =>
    intro url hu
    unfold fetchFilterLoop
    rcases List.mem_cons.mp hu with hv | hrest
    · subst hv
      split
      · exact fetchFilterLoop_mono existing theme url theme rest db (hex url (by assumption))
      · exact fetchFilterLoop_mono existing theme url theme rest _
          (record_video_self url theme db)
    · split
      · exact ih db hex url hrest
      · refine ih (record_video v theme db) ?_ url hrest
        intro u hu2
        exact record_video_mono u theme v theme db (hex u hu2)

theorem fetchFilterLoop_all_known (existing : List String) (theme : String)
    (resolved : List String) (db : DbState)
    (h : ∀ url ∈ resolved, url ∈ existing) :
    fetchFilterLoop existing theme resolved db = ([], db) := by
  induction resolved with
  | nil => rfl
  | cons url rest ih =>
    unfold fetchFilterLoop
    have hu : url ∈ existing := h url (List.mem_cons_self url rest)
    rw [if_pos hu]
    exact ih (fun u hu2 => h u (List.mem_cons_of_mem url hu2))

/-- C9 (confirmed): fetch is idempotent.  Running the dedup-and-record step a
second time with the same resolved url list and the database produced by the
first run returns zero new links and changes no Video row, because the first
run recorded every resolved url for the theme. -/
theorem fetch_videos_from_account_idempotent (resolved : List String)
    (theme : String) (db : DbState) :
    (fetch_videos_from_account resolved theme
        (fetch_videos_from_account resolved theme db).2).1 = [] ∧
    (fetch_videos_from_account resolved theme
        (fetch_videos_from_account resolved theme db).2).2 =
      (fetch_videos_from_account resolved theme db).2 := by
  have hcov : ∀ url ∈ resolved,
      (url, theme) ∈ (fetch_videos_from_account resolved theme db).2.videos := by
    intro url hu
    refine fetchFilterLoop_covers _ theme resolved db ?_ url hu
    intro u hu2
    exact (mem_existing_links u theme db).mp hu2
  have hall : ∀ url ∈ resolved,
      url ∈ get_existing_video_links_for_theme theme
        (fetch_videos_from_account resolved theme db).2 := by
    intro url hu
    exact (mem_existing_links url theme _).mpr (hcov url hu)
  have hz : fetch_videos_from_account resolved theme
      (fetch_videos_from_account resolved theme db).2
      = ([], (fetch_videos_from_account resolved theme db).2) :=
    fetchFilterLoop_all_known _ theme resolved _ hall
  rw [hz]
  exact ⟨rfl, rfl⟩

/-! The proxy health monitor (services/proxy_monitoring_service.py and
modules/proxy_utils.py). -/

/-- A row of the accounts table with the proxy columns the monitor reads. -/
structure ProxyAccount where
  username : String
  proxy_host : Option String
  proxy_port : Option Nat
  proxy_active : Bool
  proxy_status : Option String
deriving Repr, DecidableEq

/-- get_all_proxy_accounts: SELECT ... FROM accounts WHERE proxy_host IS NOT
NULL: accounts whose proxy_host column is NULL are excluded entirely. -/
def get_all_proxy_accounts (accounts : List ProxyAccount) : List ProxyAccount :=
  accounts.filter (fun a => a.proxy_host.isSome)

/-- update_proxy_status: UPDATE accounts SET proxy_status WHERE username = ?. -/
def update_proxy_status (username status : String)
    (accounts : List ProxyAccount) : List ProxyAccount :=
  accounts.map (fun a =>
    if a.username == username then { a with proxy_status := some status } else a)

/-- The config built from a row in get_account_proxy_config: None unless the
row's proxy_host is truthy (non-NULL and non-empty). -/
def hostConfig (a : ProxyAccount) : Option ProxyAccount :=
  match a.proxy_host with
  | some hst => if hst == "" then none else some a
  | none => none

/-- get_account_proxy_config (modules/proxy_utils.py): the first row WHERE
username = ? AND proxy_active = 1, provided its proxy_host is truthy. -/
def get_account_proxy_config (username : String)
    (accounts : List ProxyAccount) : Option ProxyAccount :=
  (accounts.find? (fun a => a.username == username && a.proxy_active)).bind
    hostConfig

/-- One row of the result list of the monitor. -/
structure CheckResult where
  username : String
  status : String
deriving Repr, DecidableEq

/-- check_proxy_health: without an active truthy-host config the account is
reported no_proxy and no network test runs; otherwise test_proxy_connection
runs (its outcome supplied by proxyWorks), the new status is written back,
and the tested username is appended to the network trace. -/
def check_proxy_health (proxyWorks : String → Bool) (username : String)
    (accounts : List ProxyAccount) :
    CheckResult × List String × List ProxyAccount :=
  match get_account_proxy_config username accounts with
  | none => ({ username := username, status := "no_proxy" }, [], accounts)
  | some _cfg =>
    let newStatus := if proxyWorks username then "working" else "failed"
    ({ username := username, status := newStatus }, [username],
      update_proxy_status username newStatus accounts)

/-- The loop of check_all_proxies over the snapshot rows: an inactive row is
reported disabled without any network activity; an active row goes through
check_proxy_health against the current table. -/
def checkAllLoop (proxyWorks : String → Bool) :
    List ProxyAccount → List ProxyAccount →
    List CheckResult × List String × List ProxyAccount
  | [], accounts => ([], [], accounts)
  | a :: rest, accounts =>
    if !a.proxy_active then
      let r := checkAllLoop proxyWorks rest accounts
      ({ username := a.username, status := "disabled" } :: r.1, r.2.1, r.2.2)
    else
      let h := check_proxy_health proxyWorks a.username accounts
      let r := checkAllLoop proxyWorks rest h.2.2
      (h.1 :: r.1, h.2.1 ++ r.2.1, r.2.2)

/-- check_all_proxies: snapshot the accounts with a non-NULL proxy_host and
walk them sequentially. -/
def check_all_proxies (proxyWorks : String → Bool)
    (accounts : List ProxyAccount) :
    List CheckResult × List String × List ProxyAccount :=
  checkAllLoop proxyWorks (get_all_proxy_accounts accounts) accounts

/-- What a successful config lookup guarantees about the returned row. -/
theorem get_account_proxy_config_some (username : String)
    (accounts : List ProxyAccount) (c : ProxyAccount)
    (h : get_account_proxy_config username accounts = some c) :
    c ∈ accounts ∧ c.username = username ∧ c.proxy_active = true ∧
    ∃ hst, c.proxy_host = some hst ∧ hst ≠ "" := by
  unfold get_account_proxy_config at h
  cases hf : accounts.find? (fun a => a.username == username && a.proxy_active) with
  | none => rw [hf] at h; cases h
  | some cc =>
    rw [hf] at h
    have h2 : hostConfig cc = some c := h
    have hmem := List.mem_of_find?_eq_some hf
    have hp := List.find?_some hf
    have hpu := (Bool.and_eq_true _ _).mp hp
    unfold hostConfig at h2
    split at h2
    · rename_i hst hh
      by_cases hz : hst == ""
      · rw [if_pos hz] at h2; cases h2
      · rw [if_neg hz] at h2
        cases h2
        exact ⟨hmem, eq_of_beq hpu.1, hpu.2, hst, hh, by simpa using hz⟩
    · cases h2

/-- The identity of a row apart from its mutable proxy_status column. -/
def stripStatus (a : ProxyAccount) : ProxyAccount := { a with proxy_status := none }

theorem stripStatus_update (u s : String) (accounts : List ProxyAccount) :
    (update_proxy_status u s accounts).map stripStatus = accounts.map stripStatus := by
  induction accounts with
  | nil => rfl
  | cons a t ih =>
    have hcons : update_proxy_status u s (a :: t) =
        (if a.username == u then { a with proxy_status := some s } else a) ::
          update_proxy_status u s t := rfl
    rw [hcons]
    simp only [List.map_cons, ih]
    congr 1
    split <;> rfl

/-- check_proxy_health leaves the key columns of every row unchanged. -/
theorem check_proxy_health_strip (proxyWorks : String → Bool) (username : String)
    (accounts : List ProxyAccount) :
    (check_proxy_health proxyWorks username accounts).2.2.map stripStatus
      = accounts.map stripStatus := by
  unfold check_proxy_health
  cases hcfg : get_account_proxy_config username accounts with
  | none => rfl
  | some c => exact stripStatus_update _ _ _

/-- Every result row of the loop carries the username of a snapshot row. -/
theorem checkAllLoop_result_usernames (proxyWorks : String → Bool)
    (snap : List ProxyAccount) :
    ∀ accounts, ∀ r ∈ (checkAllLoop proxyWorks snap accounts).1,
      r.username ∈ snap.map (fun a => a.username) := by
  induction snap with
  | nil => intro accounts r hr; cases hr
  | cons a rest ih =>
    intro accounts r hr
    unfold checkAllLoop at hr
    by_cases hact : a.proxy_active
    · rw [hact] at hr
      simp only [Bool.not_true] at hr
      rw [if_neg (by simp)] at hr
      rcases List.mem_cons.mp hr with h1 | h2
      · subst h1
        unfold check_proxy_health
        cases hcfg : get_account_proxy_config a.username accounts with
        | none => simp [hcfg]
        | some c => simp [hcfg]
      · exact List.mem_cons_of_mem _ (ih _ r h2)
    · simp only [Bool.not_eq_true] at hact
      rw [hact] at hr
      simp only [Bool.not_false, if_true] at hr
      rcases List.mem_cons.mp hr with h1 | h2
      · subst h1; exact List.mem_cons_self _ _
      · exact List.mem_cons_of_mem _ (ih _ r h2)

/-- Every inactive snapshot row is reported as disabled. -/
theorem checkAllLoop_disabled_reported (proxyWorks : String → Bool)
    (snap : List ProxyAccount) :
    ∀ accounts, ∀ a ∈ snap, a.proxy_active = false →
      ({ username := a.username, status := "disabled" } : CheckResult)
        ∈ (checkAllLoop proxyWorks snap accounts).1 := by
  induction snap with
  | nil => intro accounts a ha; cases ha
  | cons b rest ih =>
    intro accounts a ha hact
    unfold checkAllLoop
    rcases List.mem_cons.mp ha with h1 | h2
    · subst h1
      rw [hact]
      simp only [Bool.not_false, if_true]
      exact List.mem_cons_self _ _
    · by_cases hb : b.proxy_active
      · rw [hb]
        simp only [Bool.not_true]
        rw [if_neg (by simp)]
        exact List.mem_cons_of_mem _ (ih _ a h2 hact)
      · simp only [Bool.not_eq_true] at hb
        rw [hb]
        simp only [Bool.not_false, if_true]
        exact List.mem_cons_of_mem _ (ih _ a h2 hact)

/-- Every username in the network trace belongs to an account row that was
active with a configured non-empty proxy host. -/
theorem checkAllLoop_netTrace (proxyWorks : String → Bool)
    (accounts0 : List ProxyAccount) (snap : List ProxyAccount) :
    ∀ accounts, accounts.map stripStatus = accounts0.map stripStatus →
      ∀ u ∈ (checkAllLoop proxyWorks snap accounts).2.1,
        ∃ b ∈ accounts0, b.username = u ∧ b.proxy_active = true ∧
          ∃ hst, b.proxy_host = some hst ∧ hst ≠ "" := by
  induction snap with
  | nil => intro accounts _ u hu; cases hu
  | cons a rest ih =>
    intro accounts hinv u hu
    unfold checkAllLoop at hu
    by_cases hact : a.proxy_active
    · rw [hact] at hu
      simp only [Bool.not_true] at hu
      rw [if_neg (by simp)] at hu
      have hinv2 : (check_proxy_health proxyWorks a.username accounts).2.2.map
          stripStatus = accounts0.map stripStatus := by
        rw [check_proxy_health_strip, hinv]
      rcases List.mem_append.mp hu with h1 | h2
      · -- u came from this health check, so the config lookup succeeded
        unfold check_proxy_health at h1
        cases hcfg : get_account_proxy_config a.username accounts with
        | none => rw [hcfg] at h1; cases h1
        | some c =>
          rw [hcfg] at h1
          have hu2 : u = a.username := by simpa using h1
          obtain ⟨hcmem, hcu, hcact, hst, hh, hne⟩ :=
            get_account_proxy_config_some a.username accounts c hcfg
          have hsmem : stripStatus c ∈ accounts0.map stripStatus := by
            rw [← hinv]
            exact List.mem_map_of_mem stripStatus hcmem
          obtain ⟨b, hbmem, hb⟩ := List.mem_map.mp hsmem
          have hbu := congrArg ProxyAccount.username hb
          have hbact := congrArg ProxyAccount.proxy_active hb
          have hbhost := congrArg ProxyAccount.proxy_host hb
          simp only [stripStatus] at hbu hbact hbhost
          refine ⟨b, hbmem, ?_, ?_, hst, ?_, hne⟩
          · rw [hbu, hcu, hu2]
          · rw [hbact, hcact]
          · rw [hbhost, hh]
      · exact ih _ hinv2 u h2
    · simp only [Bool.not_eq_true] at hact
      rw [hact] at hu
      simp only [Bool.not_false, if_true] at hu
      exact ih accounts hinv u hu

/-- C10 (confirmed): classification of accounts by the proxy monitor, under
the accounts-table key invariant that usernames identify rows.  An account
with NULL proxy_host never appears in the results; an account with a
configured host but proxy_active false is reported disabled and its proxy is
never network-tested; and every network test that runs belongs to an account
that is active with a configured non-empty host. -/
theorem check_all_proxies_classification (proxyWorks : String → Bool)
    (accounts : List ProxyAccount)
    (husr : ∀ b ∈ accounts, ∀ c ∈ accounts, b.username = c.username → b = c) :
    (∀ a ∈ accounts, a.proxy_host = none →
      ∀ r ∈ (check_all_proxies proxyWorks accounts).1, r.username ≠ a.username) ∧
    (∀ a ∈ accounts, a.proxy_host.isSome → a.proxy_active = false →
      ({ username := a.username, status := "disabled" } : CheckResult)
          ∈ (check_all_proxies proxyWorks accounts).1 ∧
        a.username ∉ (check_all_proxies proxyWorks accounts).2.1) ∧
    (∀ u ∈ (check_all_proxies proxyWorks accounts).2.1, ∃ b ∈ accounts,
      b.username = u ∧ b.proxy_active = true ∧
      ∃ hst, b.proxy_host = some hst ∧ hst ≠ "") := by
  refine ⟨?_, ?_, ?_⟩
  · intro a ha hnone r hr heq
    have hmem := checkAllLoop_result_usernames proxyWorks
      (get_all_proxy_accounts accounts) accounts r hr
    obtain ⟨b, hb, hbu⟩ := List.mem_map.mp hmem
    have hbmem := List.mem_filter.mp hb
    have hbeq : b = a := husr b hbmem.1 a ha (by rw [hbu, heq])
    rw [hbeq, hnone] at hbmem
    cases hbmem.2
  · intro a ha hsome hinact
    constructor
    · refine checkAllLoop_disabled_reported proxyWorks _ accounts a ?_ hinact
      exact List.mem_filter.mpr ⟨ha, by simpa using hsome⟩
    · intro htr
      obtain ⟨b, hbmem, hbu, hbact, -⟩ :=
        checkAllLoop_netTrace proxyWorks accounts
          (get_all_proxy_accounts accounts) accounts rfl a.username htr
      have hbeq : b = a := husr b hbmem a ha hbu
      rw [hbeq] at hbact
      rw [hinact] at hbact
      cases hbact
  · intro u hu
    exact checkAllLoop_netTrace proxyWorks accounts
      (get_all_proxy_accounts accounts) accounts rfl u hu

/-- A concrete accounts table exercising all three classes of C10. -/
def c10_accounts : List ProxyAccount :=
  [ { username := "noproxy", proxy_host := none, proxy_port := none,
      proxy_active := true, proxy_status := none },
    { username := "inactive", proxy_host := some "10.0.0.2", proxy_port := some 8080,
      proxy_active := false, proxy_status := some "working" },
    { username := "active", proxy_host := some "10.0.0.3", proxy_port := some 8080,
      proxy_active := true, proxy_status := none } ]

/-- Witness for C10: the classification theorem applied to the concrete table. -/
theorem check_all_proxies_classification_witness :
    (∀ b ∈ c10_accounts, ∀ c ∈ c10_accounts, b.username = c.username → b = c) ∧
    ((∀ a ∈ c10_accounts, a.proxy_host = none →
      ∀ r ∈ (check_all_proxies (fun _ => true) c10_accounts).1,
        r.username ≠ a.username) ∧
    (∀ a ∈ c10_accounts, a.proxy_host.isSome → a.proxy_active = false →
      ({ username := a.username, status := "disabled" } : CheckResult)
          ∈ (check_all_proxies (fun _ => true) c10_accounts).1 ∧
        a.username ∉ (check_all_proxies (fun _ => true) c10_accounts).2.1) ∧
    (∀ u ∈ (check_all_proxies (fun _ => true) c10_accounts).2.1,
      ∃ b ∈ c10_accounts, b.username = u ∧ b.proxy_active = true ∧
      ∃ hst, b.proxy_host = some hst ∧ hst ≠ "")) :=
  ⟨by decide,
   check_all_proxies_classification (fun _ => true) c10_accounts (by decide)⟩

/-! Invariants of the orchestrator loop. -/

/-- The worker's task row exists and is still in status running. -/
def StatusRunning (taskId : String) (st : WorkerState) : Prop :=
  ∃ r, lookupTask st.store taskId = some r ∧ r.status = "running"

/-- A poll that sees no external cancel write and a running row reports
false and leaves the store untouched. -/
theorem check_if_cancelled_running (extCancel : Nat → Bool) (taskId : String)
    (k now : Nat) (store : TaskStore) (r : TaskRecord)
    (hk : extCancel k = false) (hr : lookupTask store taskId = some r)
    (hst : r.status = "running") :
    ProgressTask.check_if_cancelled extCancel taskId k now store = (false, store) := by
  unfold ProgressTask.check_if_cancelled
  rw [hk]
  simp only [Bool.false_eq_true, if_false]
  rw [hr]
  simp [hst]

/-- update_progress only rewrites the store and leaves the rest of the world
alone. -/
theorem update_progress_world (taskId : String) (st : WorkerState)
    (current total : Nat) (item : String) (cooldown : Option Nat) :
    (ProgressTask.update_progress taskId st current total item cooldown).db = st.db ∧
    (ProgressTask.update_progress taskId st current total item cooldown).fs = st.fs ∧
    (ProgressTask.update_progress taskId st current total item cooldown).polls = st.polls ∧
    (ProgressTask.update_progress taskId st current total item cooldown).now = st.now := by
  exact ⟨rfl, rfl, rfl, rfl⟩

/-- Effect of update_progress on the worker's task row: the status survives
and the progress becomes the computed percent. -/
theorem lookup_after_update_progress (taskId : String) (st : WorkerState)
    (current total : Nat) (item : String) (cooldown : Option Nat) (r : TaskRecord)
    (hr : lookupTask st.store taskId = some r) :
    ∃ r', lookupTask (ProgressTask.update_progress taskId st current total item
        cooldown).store taskId = some r' ∧
      r'.status = r.status ∧ r'.progress = progressPercent current total := by
  have hs : (ProgressTask.update_progress taskId st current total item
      cooldown).store = TaskService.update_task_progress st.store st.now taskId
        (progressPercent current total) item
        (some (s!"Processing {current}/{total}: {item}" ++
          (if optNatTruthy cooldown then s!" (Next in {cooldown.getD 0}s)" else "")))
        cooldown := rfl
  rw [hs, lookupTask_update_task_progress, hr]
  exact ⟨_, rfl, rfl, rfl⟩

/-- Effect of a direct update_task_progress write on the worker's task row. -/
theorem lookup_after_direct_update (st : TaskStore) (now : Nat) (taskId : String)
    (p : Nat) (item : String) (msg : Option String) (cd : Option Nat)
    (r : TaskRecord) (hr : lookupTask st taskId = some r) :
    ∃ r', lookupTask (TaskService.update_task_progress st now taskId p item msg cd)
        taskId = some r' ∧ r'.status = r.status ∧ r'.progress = p := by
  rw [lookupTask_update_task_progress, hr]
  exact ⟨_, rfl, rfl, rfl⟩

/-- The cooldown loop never touches the database. -/
theorem cooldownLoopAux_db (env : UploadEnv) (taskId username : String)
    (i total : Nat) :
    ∀ fuel remaining st,
      (cooldownLoopAux env taskId username i total fuel remaining st).1.db = st.db := by
  intro fuel
  induction fuel with
  | zero => intro remaining st; rfl
  | succ f ih =>
    intro remaining st
    cases remaining with
    | zero => rfl
    | succ rem =>
      simp only [cooldownLoopAux]
      split
      · rfl
      · rw [ih]
        split <;> rfl

/-- The cooldown loop never touches the filesystem. -/
theorem cooldownLoopAux_fs (env : UploadEnv) (taskId username : String)
    (i total : Nat) :
    ∀ fuel remaining st,
      (cooldownLoopAux env taskId username i total fuel remaining st).1.fs = st.fs := by
  intro fuel
  induction fuel with
  | zero => intro remaining st; rfl
  | succ f ih =>
    intro remaining st
    cases remaining with
    | zero => rfl
    | succ rem =>
      simp only [cooldownLoopAux]
      split
      · rfl
      · rw [ih]
        split <;> rfl

/-- Every sleep of the cooldown loop is at most 10 seconds. -/
theorem cooldownLoopAux_sleep_le (env : UploadEnv) (taskId username : String)
    (i total : Nat) :
    ∀ fuel remaining st s,
      Event.sleep s ∈ (cooldownLoopAux env taskId username i total fuel remaining st).2.1 →
      s ≤ 10 := by
  intro fuel
  induction fuel with
  | zero => intro remaining st s h; cases h
  | succ f ih =>
    intro remaining st s h
    cases remaining with
    | zero => cases h
    | succ rem =>
      simp only [cooldownLoopAux] at h
      split at h
      · simp at h
      · rcases List.mem_cons.mp h with h1 | h2
        · cases h1
          exact min_le_left 10 (rem + 1)
        · exact ih _ _ s h2

/-- With no external cancel write landing, the cooldown loop never cancels,
keeps the row running with the item's progress percent, and emits no
terminal status write. -/
theorem cooldownLoopAux_nocancel (env : UploadEnv) (taskId username : String)
    (i total : Nat) (hnc : ∀ k, env.extCancel k = false) (htot : 0 < total) :
    ∀ fuel remaining st r, lookupTask st.store taskId = some r →
      r.status = "running" → r.progress = i * 100 / total →
      (cooldownLoopAux env taskId username i total fuel remaining st).2.2 = false ∧
      (∃ r', lookupTask (cooldownLoopAux env taskId username i total fuel
          remaining st).1.store taskId = some r' ∧
        r'.status = "running" ∧ r'.progress = i * 100 / total) ∧
      (∀ e ∈ (cooldownLoopAux env taskId username i total fuel remaining st).2.1,
        e.isTerminalWrite = false) := by
  intro fuel
  induction fuel with
  | zero =>
    intro remaining st r hr hst hprog
    exact ⟨rfl, ⟨r, hr, hst, hprog⟩, fun e he => by cases he⟩
  | succ f ih =>
    intro remaining st r hr hst hprog
    cases remaining with
    | zero => exact ⟨rfl, ⟨r, hr, hst, hprog⟩, fun e he => by cases he⟩
    | succ rem =>
      simp only [cooldownLoopAux]
      rw [check_if_cancelled_running env.extCancel taskId st.polls st.now st.store r
        (hnc st.polls) hr hst]
      simp only [Bool.false_eq_true, if_false]
      by_cases hleft : 0 < rem + 1 - min 10 (rem + 1)
      · rw [if_pos hleft]
        obtain ⟨r2, hr2, hst2, hprog2⟩ := lookup_after_update_progress taskId
          { st with store := st.store, polls := st.polls + 1, now := st.now + min 10 (rem + 1) }
          i total
          (s!"Video {i} uploaded - Cooldown remaining: {rem + 1 - min 10 (rem + 1)}s")
          (some (rem + 1 - min 10 (rem + 1))) r hr
        have hst2' : r2.status = "running" := by rw [hst2, hst]
        have hprog2' : r2.progress = i * 100 / total := by
          rw [hprog2]
          unfold progressPercent
          rw [if_pos htot]
        obtain ⟨hc, hex, hev⟩ := ih _ _ r2 hr2 hst2' hprog2'
        refine ⟨hc, hex, ?_⟩
        intro e he
        rcases List.mem_cons.mp he with h1 | h2
        · rw [h1]; rfl
        · exact hev e h2
      · rw [if_neg hleft]
        obtain ⟨hc, hex, hev⟩ := ih _
          { st with store := st.store, polls := st.polls + 1, now := st.now + min 10 (rem + 1) }
          r hr hst hprog
        refine ⟨hc, hex, ?_⟩
        intro e he
        rcases List.mem_cons.mp he with h1 | h2
        · rw [h1]; rfl
        · exact hev e h2

theorem update_progress_db (taskId : String) (st : WorkerState)
    (current total : Nat) (item : String) (cooldown : Option Nat) :
    (ProgressTask.update_progress taskId st current total item cooldown).db = st.db := rfl

theorem update_progress_fs (taskId : String) (st : WorkerState)
    (current total : Nat) (item : String) (cooldown : Option Nat) :
    (ProgressTask.update_progress taskId st current total item cooldown).fs = st.fs := rfl

theorem update_progress_polls (taskId : String) (st : WorkerState)
    (current total : Nat) (item : String) (cooldown : Option Nat) :
    (ProgressTask.update_progress taskId st current total item cooldown).polls = st.polls := rfl

theorem update_progress_now (taskId : String) (st : WorkerState)
    (current total : Nat) (item : String) (cooldown : Option Nat) :
    (ProgressTask.update_progress taskId st current total item cooldown).now = st.now := rfl

/-- cooldownLoop wrapper versions of the loop lemmas. -/
theorem cooldownLoop_db (env : UploadEnv) (taskId username : String)
    (i total remaining : Nat) (st : WorkerState) :
    (cooldownLoop env taskId username i total remaining st).1.db = st.db :=
  cooldownLoopAux_db env taskId username i total _ remaining st

theorem cooldownLoop_fs (env : UploadEnv) (taskId username : String)
    (i total remaining : Nat) (st : WorkerState) :
    (cooldownLoop env taskId username i total remaining st).1.fs = st.fs :=
  cooldownLoopAux_fs env taskId username i total _ remaining st

theorem cooldownLoop_sleep_le (env : UploadEnv) (taskId username : String)
    (i total remaining : Nat) (st : WorkerState) (s : Nat)
    (h : Event.sleep s ∈ (cooldownLoop env taskId username i total remaining st).2.1) :
    s ≤ 10 :=
  cooldownLoopAux_sleep_le env taskId username i total _ remaining st s h

theorem cooldownLoop_nocancel (env : UploadEnv) (taskId username : String)
    (i total remaining : Nat) (st : WorkerState) (r : TaskRecord)
    (hnc : ∀ k, env.extCancel k = false) (htot : 0 < total)
    (hr : lookupTask st.store taskId = some r) (hst : r.status = "running")
    (hprog : r.progress = i * 100 / total) :
    (cooldownLoop env taskId username i total remaining st).2.2 = false ∧
    (∃ r', lookupTask (cooldownLoop env taskId username i total remaining
        st).1.store taskId = some r' ∧
      r'.status = "running" ∧ r'.progress = i * 100 / total) ∧
    (∀ e ∈ (cooldownLoop env taskId username i total remaining st).2.1,
      e.isTerminalWrite = false) :=
  cooldownLoopAux_nocancel env taskId username i total hnc htot _ remaining st r
    hr hst hprog

/-- A poll that sees the landed external cancel write: the store now holds
the cancelled row and the poll reports true. -/
theorem check_if_cancelled_cancel (extCancel : Nat → Bool) (taskId : String)
    (k now : Nat) (store : TaskStore) (r : TaskRecord)
    (hk : extCancel k = true) (hr : lookupTask store taskId = some r) :
    ProgressTask.check_if_cancelled extCancel taskId k now store =
      (true, TaskService.update_task_status store now taskId "cancelled"
        (some "Task cancelled by user")) := by
  unfold ProgressTask.check_if_cancelled
  rw [hk]
  show (match lookupTask (TaskService.update_task_status store now taskId
      "cancelled" (some "Task cancelled by user")) taskId with
    | some r => r.status == "cancelled"
    | none => false,
    TaskService.update_task_status store now taskId "cancelled"
      (some "Task cancelled by user")) = _
  rw [lookupTask_update_task_status, hr]
  rfl

/-- The row the cancelling write leaves behind: status cancelled with the
scheduling fields cleared. -/
theorem cancelled_row_shape (store : TaskStore) (now : Nat) (taskId : String)
    (r : TaskRecord) (hr : lookupTask store taskId = some r) :
    ∃ r', lookupTask (TaskService.update_task_status store now taskId "cancelled"
        (some "Task cancelled by user")) taskId = some r' ∧
      r'.status = "cancelled" ∧ r'.next_action_at = none ∧
      r'.cooldown_seconds = none := by
  rw [lookupTask_update_task_status, hr]
  exact ⟨_, rfl, rfl, rfl, rfl⟩

/-- If the stored status has been set to cancelled by the time of the next
poll, a cooldown with seconds still to sleep stops at that very poll: it
reports cancellation, performs no further sleep, leaves the cancelled row
with its scheduling fields cleared, and does not touch the database. -/
theorem cooldownLoop_cancel_immediate (env : UploadEnv) (taskId username : String)
    (i total remaining : Nat) (st : WorkerState) (r : TaskRecord)
    (hrem : 0 < remaining) (hk : env.extCancel st.polls = true)
    (hr : lookupTask st.store taskId = some r) :
    (cooldownLoop env taskId username i total remaining st).2.2 = true ∧
    (∀ s, Event.sleep s ∉ (cooldownLoop env taskId username i total remaining st).2.1) ∧
    (∃ r', lookupTask (cooldownLoop env taskId username i total remaining
        st).1.store taskId = some r' ∧
      r'.status = "cancelled" ∧ r'.next_action_at = none ∧
      r'.cooldown_seconds = none) ∧
    (cooldownLoop env taskId username i total remaining st).1.db = st.db := by
  cases remaining with
  | zero => cases hrem
  | succ rem =>
    unfold cooldownLoop
    cases hf : (rem + 1 + 9) / 10 with
    | zero => exfalso; omega
    | succ f =>
      simp only [cooldownLoopAux]
      rw [check_if_cancelled_cancel env.extCancel taskId st.polls st.now st.store r
        hk hr]
      refine ⟨rfl, ?_, ?_, rfl⟩
      · intro s hs
        simp at hs
      · exact cancelled_row_shape st.store st.now taskId r hr

theorem update_progress_store_eq (taskId : String) (st : WorkerState)
    (current total : Nat) (item : String) (cooldown : Option Nat) :
    (ProgressTask.update_progress taskId st current total item cooldown).store =
      TaskService.update_task_progress st.store st.now taskId
        (progressPercent current total) item
        (some (s!"Processing {current}/{total}: {item}" ++
          (if optNatTruthy cooldown then s!" (Next in {cooldown.getD 0}s)" else "")))
        cooldown := rfl

def RunningStore (store : TaskStore) (taskId : String) : Prop :=
  ∃ r, lookupTask store taskId = some r ∧ r.status = "running"

theorem running_after_update (store : TaskStore) (now : Nat) (taskId : String)
    (p : Nat) (item : String) (msg : Option String) (cd : Option Nat)
    (hrun : RunningStore store taskId) :
    RunningStore (TaskService.update_task_progress store now taskId p item msg cd)
      taskId := by
  obtain ⟨r, hr, hst⟩ := hrun
  obtain ⟨r', hr', hst', _⟩ := lookup_after_direct_update store now taskId p item
    msg cd r hr
  exact ⟨r', hr', by rw [hst', hst]⟩

theorem check_if_cancelled_running2 (extCancel : Nat → Bool) (taskId : String)
    (k now : Nat) (store : TaskStore)
    (hk : extCancel k = false) (hrun : RunningStore store taskId) :
    ProgressTask.check_if_cancelled extCancel taskId k now store = (false, store) := by
  obtain ⟨r, hr, hst⟩ := hrun
  exact check_if_cancelled_running extCancel taskId k now store r hk hr hst

theorem runprog_last (store : TaskStore) (now : Nat) (taskId item : String)
    (msg : Option String) (cd : Option Nat) (i total : Nat) (htot : 0 < total)
    (hrun : RunningStore store taskId) :
    ∃ r, lookupTask (TaskService.update_task_progress store now taskId
        (progressPercent i total) item msg cd) taskId = some r ∧
      r.status = "running" ∧ r.progress = i * 100 / total := by
  obtain ⟨r, hr, hst⟩ := hrun
  obtain ⟨r', hr', hst', hpr'⟩ := lookup_after_direct_update store now taskId
    (progressPercent i total) item msg cd r hr
  refine ⟨r', hr', by rw [hst', hst], ?_⟩
  rw [hpr']
  unfold progressPercent
  rw [if_pos htot]

theorem cooldownLoop_nocancel_flag (env : UploadEnv) (taskId username : String)
    (i total remaining : Nat) (st : WorkerState)
    (hnc : ∀ k, env.extCancel k = false) (htot : 0 < total)
    (hrow : ∃ r, lookupTask st.store taskId = some r ∧ r.status = "running" ∧
      r.progress = i * 100 / total) :
    (cooldownLoop env taskId username i total remaining st).2.2 = false := by
  obtain ⟨r, h1, h2, h3⟩ := hrow
  exact (cooldownLoop_nocancel env taskId username i total remaining st r hnc
    htot h1 h2 h3).1

theorem cooldownLoop_nocancel_row (env : UploadEnv) (taskId username : String)
    (i total remaining : Nat) (st : WorkerState)
    (hnc : ∀ k, env.extCancel k = false) (htot : 0 < total)
    (hrow : ∃ r, lookupTask st.store taskId = some r ∧ r.status = "running" ∧
      r.progress = i * 100 / total) :
    ∃ r', lookupTask (cooldownLoop env taskId username i total remaining
        st).1.store taskId = some r' ∧
      r'.status = "running" ∧ r'.progress = i * 100 / total := by
  obtain ⟨r, h1, h2, h3⟩ := hrow
  exact (cooldownLoop_nocancel env taskId username i total remaining st r hnc
    htot h1 h2 h3).2.1

theorem cooldownLoop_nocancel_events (env : UploadEnv) (taskId username : String)
    (i total remaining : Nat) (st : WorkerState)
    (hnc : ∀ k, env.extCancel k = false) (htot : 0 < total)
    (hrow : ∃ r, lookupTask st.store taskId = some r ∧ r.status = "running" ∧
      r.progress = i * 100 / total) :
    ∀ e ∈ (cooldownLoop env taskId username i total remaining st).2.1,
      e.isTerminalWrite = false := by
  obtain ⟨r, h1, h2, h3⟩ := hrow
  exact (cooldownLoop_nocancel env taskId username i total remaining st r hnc
    htot h1 h2 h3).2.2

theorem processOneVideo_nocancel (env : UploadEnv) (taskId username : String)
    (i total : Nat) (video : String) (st : WorkerState)
    (hnc : ∀ k, env.extCancel k = false) (htot : 0 < total)
    (hrun : RunningStore st.store taskId) :
    (processOneVideo env taskId username i total video st).cancelled = false ∧
    (∃ r', lookupTask (processOneVideo env taskId username i total video st).st.store
        taskId = some r' ∧ r'.status = "running" ∧ r'.progress = i * 100 / total) ∧
    (∀ e ∈ (processOneVideo env taskId username i total video st).events,
      e.isTerminalWrite = false) := by
  unfold processOneVideo
  rw [check_if_cancelled_running2 env.extCancel taskId st.polls st.now st.store
    (hnc st.polls) hrun]
  simp only [update_progress_db, update_progress_fs, update_progress_polls,
    update_progress_now, update_progress_store_eq, Bool.false_eq_true, if_false]
  rw [check_if_cancelled_running2 env.extCancel taskId (st.polls + 1) st.now _
    (hnc _) (running_after_update _ _ _ _ _ _ _ hrun)]
  simp only [update_progress_db, update_progress_fs, update_progress_polls,
    update_progress_now, update_progress_store_eq, Bool.false_eq_true, if_false]
  rw [check_if_cancelled_running2 env.extCancel taskId (st.polls + 1 + 1) st.now _
    (hnc _) (running_after_update _ _ _ _ _ _ _ (running_after_update _ _ _ _ _ _ _
      (running_after_update _ _ _ _ _ _ _ hrun)))]
  simp only [update_progress_db, update_progress_fs, update_progress_polls,
    update_progress_now, update_progress_store_eq, Bool.false_eq_true, if_false]
  by_cases hpub : is_video_published username video st.db = true
  · rw [if_pos hpub]
    refine ⟨rfl, ?_, ?_⟩
    · simp only [lookupTask_update_task_progress]
      obtain ⟨r, hr, hst⟩ := hrun
      rw [hr]
      exact ⟨_, rfl, hst, rfl⟩
    · intro e he
      simp at he
  · rw [if_neg hpub]
    cases hlink : env.get_download_link i with
    | none =>
      refine ⟨rfl, ?_, ?_⟩
      · dsimp only
        simp only [lookupTask_update_task_progress]
        obtain ⟨r, hr, hst⟩ := hrun
        rw [hr]
        exact ⟨_, rfl, hst, rfl⟩
      · intro e he
        simp at he
        subst he
        rfl
    | some url =>
      dsimp only
      by_cases hdl : (download_video (env.dl i) (outputPath env username video) st.fs).1 = true
      · simp only [hdl, Bool.not_true, Bool.false_eq_true, if_false]
        by_cases hup : env.upload_ok i = true
        · simp only [hup, if_true]
          by_cases hcd : 0 < (if i < total then env.cooldown i else 0)
          · simp only [hcd, if_true]
            refine ⟨?_, ?_, ?_⟩
            · dsimp only
              apply cooldownLoop_nocancel_flag _ _ _ _ _ _ _ hnc htot
              dsimp only
              exact runprog_last _ _ _ _ _ _ _ _ htot
                (running_after_update _ _ _ _ _ _ _
                  (running_after_update _ _ _ _ _ _ _
                    (running_after_update _ _ _ _ _ _ _
                      (running_after_update _ _ _ _ _ _ _ hrun))))
            · dsimp only
              apply cooldownLoop_nocancel_row _ _ _ _ _ _ _ hnc htot
              dsimp only
              exact runprog_last _ _ _ _ _ _ _ _ htot
                (running_after_update _ _ _ _ _ _ _
                  (running_after_update _ _ _ _ _ _ _
                    (running_after_update _ _ _ _ _ _ _
                      (running_after_update _ _ _ _ _ _ _ hrun))))
            · dsimp only
              intro e he
              rcases List.mem_append.mp he with h1 | h2
              · simp at h1
                rcases h1 with h1 | h1 <;> subst h1 <;> rfl
              · refine cooldownLoop_nocancel_events _ _ _ _ _ _ _ hnc htot ?_ e h2
                dsimp only
                exact runprog_last _ _ _ _ _ _ _ _ htot
                  (running_after_update _ _ _ _ _ _ _
                    (running_after_update _ _ _ _ _ _ _
                      (running_after_update _ _ _ _ _ _ _
                        (running_after_update _ _ _ _ _ _ _ hrun))))
          · simp only [hcd, if_false]
            refine ⟨trivial, ?_, ?_⟩
            · dsimp only
              exact runprog_last _ _ _ _ _ _ _ _ htot
                (running_after_update _ _ _ _ _ _ _
                  (running_after_update _ _ _ _ _ _ _
                    (running_after_update _ _ _ _ _ _ _
                      (running_after_update _ _ _ _ _ _ _ hrun))))
            · intro e he
              simp at he
              rcases he with he | he <;> subst he <;> rfl
        · have hup2 : env.upload_ok i = false := by
            revert hup
            cases env.upload_ok i <;> simp
          simp only [hup2, Bool.false_eq_true, if_false]
          refine ⟨trivial, ?_, ?_⟩
          · dsimp only
            simp only [lookupTask_update_task_progress]
            obtain ⟨r, hr, hst⟩ := hrun
            rw [hr]
            exact ⟨_, rfl, hst, rfl⟩
          · intro e he
            simp at he
            rcases he with he | he <;> subst he <;> rfl
      · have hdl2 : (download_video (env.dl i) (outputPath env username video) st.fs).1 = false := by
          revert hdl
          cases (download_video (env.dl i) (outputPath env username video) st.fs).1 <;> simp
        simp only [hdl2, Bool.not_false, if_true]
        refine ⟨trivial, ?_, ?_⟩
        · dsimp only
          simp only [lookupTask_update_task_progress]
          obtain ⟨r, hr, hst⟩ := hrun
          rw [hr]
          exact ⟨_, rfl, hst, rfl⟩
        · intro e he
          simp at he
          subst he
          rfl

/-- With no external cancel write, the loop over the remaining videos never
cancels, keeps the task row running, and emits no terminal status write. -/
theorem runVideos_nocancel (env : UploadEnv) (taskId username : String)
    (total : Nat) (hnc : ∀ k, env.extCancel k = false) (htot : 0 < total) :
    ∀ videos (i succ failed : Nat) (st : WorkerState),
      RunningStore st.store taskId →
      (runVideos env taskId username total videos i succ failed st).cancelled = false ∧
      RunningStore (runVideos env taskId username total videos i succ failed
        st).st.store taskId ∧
      (∀ e ∈ (runVideos env taskId username total videos i succ failed st).events,
        e.isTerminalWrite = false) := by
  intro videos
  induction videos with
  | nil =>
    intro i succ failed st hrun
    exact ⟨rfl, hrun, fun e he => by cases he⟩
  | cons video rest ih =>
    intro i succ failed st hrun
    obtain ⟨hc, hrow, hev⟩ := processOneVideo_nocancel env taskId username i total
      video st hnc htot hrun
    have hrun2 : RunningStore (processOneVideo env taskId username i total video
        st).st.store taskId := by
      obtain ⟨r', h1, h2, _⟩ := hrow
      exact ⟨r', h1, h2⟩
    obtain ⟨hc2, hrun3, hev2⟩ := ih (i + 1) (succ + (processOneVideo env taskId
      username i total video st).succInc) (failed + (processOneVideo env taskId
      username i total video st).failInc) (processOneVideo env taskId username i
      total video st).st hrun2
    unfold runVideos
    simp only [hc, Bool.false_eq_true, if_false]
    refine ⟨hc2, hrun3, ?_⟩
    intro e he
    rcases List.mem_append.mp he with h1 | h2
    · exact hev e h1
    · exact hev2 e h2

/-- C3: terminal transition of a run that exhausts its list. -/
theorem upload_run_terminal_status (env : UploadEnv) (taskId username : String)
    (videos : List String) (st0 : WorkerState)
    (hnc : ∀ k, env.extCancel k = false) :
    (process_video_with_progress env taskId username videos st0).cancelled = false ∧
    (∃ r, lookupTask (process_video_with_progress env taskId username videos
        st0).st.store taskId = some r ∧
      r.status = (if 0 < (process_video_with_progress env taskId username videos
        st0).successCount then "success" else "failed") ∧
      r.next_action_at = none ∧ r.cooldown_seconds = none) ∧
    (process_video_with_progress env taskId username videos st0).events.filter
        Event.isTerminalWrite =
      [Event.statusWrite (if 0 < (process_video_with_progress env taskId username
        videos st0).successCount then "success" else "failed")] := by
  have hrun1 : RunningStore (TaskService.log_task st0.store st0.now taskId
      "upload" "running" (some username)
      (some s!"Starting upload of {videos.length} videos to @{username}")
      (some 0) (some videos.length) none none) taskId := by
    obtain ⟨r, hr, -, -, hstat, -⟩ := lookupTask_log_task st0.store st0.now taskId
      "upload" "running" (some username)
      (some s!"Starting upload of {videos.length} videos to @{username}")
      (some 0) (some videos.length) none none
    exact ⟨r, hr, hstat⟩
  cases videos with
  | nil =>
    unfold process_video_with_progress runVideos
    obtain ⟨r1, hr1, hst1⟩ := hrun1
    refine ⟨rfl, ?_, rfl⟩
    simp only [Bool.false_eq_true, if_false, lookupTask_update_task_status]
    rw [hr1]
    exact ⟨_, rfl, rfl, rfl, rfl⟩
  | cons v rest =>
    have htot : 0 < (v :: rest).length := by simp
    obtain ⟨hc, hrunF, hevF⟩ := runVideos_nocancel env taskId username
      ((v :: rest).length) hnc htot (v :: rest) 1 0 0
      { st0 with store := (TaskService.log_task st0.store st0.now taskId "upload"
        "running" (some username)
        (some s!"Starting upload of {(v :: rest).length} videos to @{username}")
        (some 0) (some (v :: rest).length) none none) } hrun1
    unfold process_video_with_progress
    simp only [hc, Bool.false_eq_true, if_false]
    set R := runVideos env taskId username ((v :: rest).length) (v :: rest) 1 0 0
      { st0 with store := (TaskService.log_task st0.store st0.now taskId "upload"
        "running" (some username)
        (some s!"Starting upload of {(v :: rest).length} videos to @{username}")
        (some 0) (some (v :: rest).length) none none) } with hReq
    have hnil : R.events.filter Event.isTerminalWrite = [] :=
      List.filter_eq_nil_iff.mpr (fun a ha => by rw [hevF a ha]; exact Bool.false_ne_true)
    refine ⟨trivial, ?_, ?_⟩
    · by_cases hsc : 0 < R.successCount
      · simp only [hsc, if_true, lookupTask_update_task_status]
        obtain ⟨rF, hrF, hstF⟩ := hrunF
        rw [show lookupTask R.st.store taskId = some rF from hrF]
        exact ⟨_, rfl, rfl, rfl, rfl⟩
      · simp only [hsc, if_false, lookupTask_update_task_status]
        obtain ⟨rF, hrF, hstF⟩ := hrunF
        rw [show lookupTask R.st.store taskId = some rF from hrF]
        exact ⟨_, rfl, rfl, rfl, rfl⟩
    · by_cases hsc : 0 < R.successCount
      · simp only [hsc, if_true, List.filter_cons, List.filter_append, hnil]
        rfl
      · simp only [hsc, if_false, List.filter_cons, List.filter_append, hnil]
        rfl

/-- An environment for concrete runs whose download-link resolution fails. -/
def c3env : UploadEnv :=
  { hashName := fun s => s, get_download_link := fun _ => none,
    dl := fun _ => DlOutcome.preOpenError, upload_ok := fun _ => false,
    cooldown := fun _ => 300, extCancel := fun _ => false }

/-- An initial empty world for concrete runs. -/
def st_empty : WorkerState :=
  { db := { publicationhistory := [], videos := [] }, fs := [], store := [],
    polls := 0, now := 0 }

/-- Witness for C3: a concrete run over one failing video terminates with
status failed and cleared scheduling fields, in exactly one terminal write. -/
theorem upload_run_terminal_status_witness :
    (∀ k, c3env.extCancel k = false) ∧
    ((process_video_with_progress c3env "t1" "alice" ["v"] st_empty).cancelled
        = false ∧
    (∃ r, lookupTask (process_video_with_progress c3env "t1" "alice" ["v"]
        st_empty).st.store "t1" = some r ∧
      r.status = (if 0 < (process_video_with_progress c3env "t1" "alice" ["v"]
        st_empty).successCount then "success" else "failed") ∧
      r.next_action_at = none ∧ r.cooldown_seconds = none) ∧
    (process_video_with_progress c3env "t1" "alice" ["v"] st_empty).events.filter
        Event.isTerminalWrite =
      [Event.statusWrite (if 0 < (process_video_with_progress c3env "t1" "alice"
        ["v"] st_empty).successCount then "success" else "failed")]) :=
  ⟨fun _ => rfl,
   upload_run_terminal_status c3env "t1" "alice" ["v"] st_empty (fun _ => rfl)⟩

/-- C1 (confirmed): when the (account, link) pair is already in
publicationhistory at the time the video is reached, the iteration skips it:
the publish collaborator is never invoked, and the database (Video and
PublicationRecord tables) and the local filesystem are untouched; the video
counts neither as a success nor as a failure. -/
theorem skip_already_published (env : UploadEnv) (taskId username : String)
    (i total : Nat) (video : String) (st : WorkerState)
    (hpub : is_video_published username video st.db = true) :
    (∀ e ∈ (processOneVideo env taskId username i total video st).events,
      e.isPublish = false) ∧
    (processOneVideo env taskId username i total video st).st.db = st.db ∧
    (processOneVideo env taskId username i total video st).st.fs = st.fs ∧
    (processOneVideo env taskId username i total video st).succInc = 0 ∧
    (processOneVideo env taskId username i total video st).failInc = 0 := by
  unfold processOneVideo
  by_cases hp : (ProgressTask.check_if_cancelled env.extCancel taskId st.polls
    st.now st.store).1 = true
  · simp only [hp, if_true]
    refine ⟨?_, trivial, trivial, trivial, trivial⟩
    intro e he
    simp at he
    subst he
    rfl
  · have hp2 : (ProgressTask.check_if_cancelled env.extCancel taskId st.polls
        st.now st.store).1 = false := by
      revert hp
      cases (ProgressTask.check_if_cancelled env.extCancel taskId st.polls
        st.now st.store).1 <;> simp
    simp only [hp2, Bool.false_eq_true, if_false, update_progress_db,
      update_progress_fs, update_progress_polls, update_progress_now,
      update_progress_store_eq]
    rw [if_pos hpub]
    refine ⟨?_, rfl, rfl, rfl, rfl⟩
    intro e he
    simp at he

/-- A world in which alice has already published the video v1. -/
def c1_state : WorkerState :=
  { db := { publicationhistory := [("alice", "v1")], videos := [("v1", "theme")] },
    fs := [], store := [], polls := 0, now := 0 }

/-- Witness for C1: the skip theorem applied to a world where the pair is
already recorded. -/
theorem skip_already_published_witness :
    is_video_published "alice" "v1" c1_state.db = true ∧
    ((∀ e ∈ (processOneVideo c3env "t1" "alice" 1 2 "v1" c1_state).events,
      e.isPublish = false) ∧
    (processOneVideo c3env "t1" "alice" 1 2 "v1" c1_state).st.db = c1_state.db ∧
    (processOneVideo c3env "t1" "alice" 1 2 "v1" c1_state).st.fs = c1_state.fs ∧
    (processOneVideo c3env "t1" "alice" 1 2 "v1" c1_state).succInc = 0 ∧
    (processOneVideo c3env "t1" "alice" 1 2 "v1" c1_state).failInc = 0) :=
  ⟨by decide,
   skip_already_published c3env "t1" "alice" 1 2 "v1" c1_state (by decide)⟩

/-- A completed download with zero bytes reports failure but leaves the file. -/
theorem download_video_empty (p : String) (fs : FileSystem) :
    download_video (DlOutcome.complete 0) p fs = (false, fsWrite p 0 fs) := rfl

theorem fsHasFile_fsWrite (p : String) (n : Nat) (fs : FileSystem) :
    fsHasFile p (fsWrite p n fs) = true := by
  simp [fsHasFile, fsWrite, List.any_append]

/-- C8 (amended): when the download of a video produces an empty file, the
orchestrator marks the video failed and continues with the next one, but the
empty file is left on disk: no branch of the failure path removes it. -/
theorem download_failure_marks_failed_but_leaves_file (env : UploadEnv)
    (taskId username : String) (i total : Nat) (video url : String)
    (st : WorkerState)
    (hnc : ∀ k, env.extCancel k = false)
    (hrun : RunningStore st.store taskId)
    (hpub : ¬is_video_published username video st.db = true)
    (hlink : env.get_download_link i = some url)
    (hdl : env.dl i = DlOutcome.complete 0) :
    (processOneVideo env taskId username i total video st).cancelled = false ∧
    (processOneVideo env taskId username i total video st).succInc = 0 ∧
    (processOneVideo env taskId username i total video st).failInc = 1 ∧
    fsHasFile (outputPath env username video)
      (processOneVideo env taskId username i total video st).st.fs = true ∧
    (processOneVideo env taskId username i total video st).st.db = st.db ∧
    (∀ e ∈ (processOneVideo env taskId username i total video st).events,
      e.isPublish = false) := by
  unfold processOneVideo
  rw [check_if_cancelled_running2 env.extCancel taskId st.polls st.now st.store
    (hnc st.polls) hrun]
  simp only [update_progress_db, update_progress_fs, update_progress_polls,
    update_progress_now, update_progress_store_eq, Bool.false_eq_true, if_false]
  rw [check_if_cancelled_running2 env.extCancel taskId (st.polls + 1) st.now _
    (hnc _) (running_after_update _ _ _ _ _ _ _ hrun)]
  simp only [update_progress_db, update_progress_fs, update_progress_polls,
    update_progress_now, update_progress_store_eq, Bool.false_eq_true, if_false]
  rw [if_neg hpub]
  rw [hlink]
  dsimp only
  have hfalse : (download_video (env.dl i) (outputPath env username video)
      st.fs).1 = false := by
    rw [hdl]
    rfl
  simp only [hfalse, Bool.not_false, if_true]
  refine ⟨trivial, trivial, trivial, ?_, trivial, ?_⟩
  · rw [hdl, download_video_empty]
    exact fsHasFile_fsWrite _ 0 st.fs
  · intro e he
    simp at he
    subst he
    rfl

/-- An environment whose downloads complete but write zero bytes. -/
def c8env : UploadEnv :=
  { hashName := fun s => s, get_download_link := fun _ => some "u",
    dl := fun _ => DlOutcome.complete 0, upload_ok := fun _ => false,
    cooldown := fun _ => 300, extCancel := fun _ => false }

/-- The worker's running task row for concrete single-item iterations. -/
def c8_row : TaskRecord :=
  { id := "t1", task_type := "upload", status := "running",
    account_username := some "alice", message := none, progress := 0,
    total_items := 1, current_item := none, next_action_at := none,
    cooldown_seconds := none, created_at := 0 }

def c8_state : WorkerState :=
  { db := { publicationhistory := [], videos := [] }, fs := [],
    store := [c8_row], polls := 0, now := 0 }

/-- C8 counterexample: after a download that produced an empty file, the
file is still on disk at the end of the iteration, refuting the claim that
the orchestrator cleans up the partial file. -/
theorem download_failure_file_remains :
    fsHasFile (outputPath c8env "alice" "v1")
      (processOneVideo c8env "t1" "alice" 1 1 "v1" c8_state).st.fs = true ∧
    (processOneVideo c8env "t1" "alice" 1 1 "v1" c8_state).failInc = 1 := by
  decide

/-- Witness for C8: the amended theorem applied to a concrete empty download. -/
theorem download_failure_marks_failed_but_leaves_file_witness :
    (∀ k, c8env.extCancel k = false) ∧
    RunningStore c8_state.store "t1" ∧
    ¬is_video_published "alice" "v1" c8_state.db = true ∧
    c8env.get_download_link 1 = some "u" ∧
    c8env.dl 1 = DlOutcome.complete 0 ∧
    ((processOneVideo c8env "t1" "alice" 1 1 "v1" c8_state).cancelled = false ∧
    (processOneVideo c8env "t1" "alice" 1 1 "v1" c8_state).succInc = 0 ∧
    (processOneVideo c8env "t1" "alice" 1 1 "v1" c8_state).failInc = 1 ∧
    fsHasFile (outputPath c8env "alice" "v1")
      (processOneVideo c8env "t1" "alice" 1 1 "v1" c8_state).st.fs = true ∧
    (processOneVideo c8env "t1" "alice" 1 1 "v1" c8_state).st.db = c8_state.db ∧
    (∀ e ∈ (processOneVideo c8env "t1" "alice" 1 1 "v1" c8_state).events,
      e.isPublish = false)) :=
  ⟨fun _ => rfl, ⟨c8_row, rfl, rfl⟩, by decide, rfl, rfl,
   download_failure_marks_failed_but_leaves_file c8env "t1" "alice" 1 1 "v1" "u"
     c8_state (fun _ => rfl) ⟨c8_row, rfl, rfl⟩ (by decide) rfl rfl⟩

/-- C2 (confirmed): the post-publish cooldown sleeps in increments of at most
10 seconds with the stored status re-polled on every tick; the cooldown never
touches the publicationhistory table; and if the stored status reads cancelled
at the next poll while seconds remain, the loop stops at that poll with no
further sleep, leaving the cancelled row with its scheduling fields cleared
and the already-written PublicationRecord intact. -/
theorem cooldown_tick_poll_cancel (env : UploadEnv) (taskId username : String)
    (i total remaining : Nat) (st : WorkerState) (r : TaskRecord)
    (hr : lookupTask st.store taskId = some r) :
    (∀ s, Event.sleep s ∈ (cooldownLoop env taskId username i total remaining
      st).2.1 → s ≤ 10) ∧
    (cooldownLoop env taskId username i total remaining st).1.db = st.db ∧
    (0 < remaining → env.extCancel st.polls = true →
      (cooldownLoop env taskId username i total remaining st).2.2 = true ∧
      (∀ s, Event.sleep s ∉ (cooldownLoop env taskId username i total remaining
        st).2.1) ∧
      (∃ r', lookupTask (cooldownLoop env taskId username i total remaining
          st).1.store taskId = some r' ∧
        r'.status = "cancelled" ∧ r'.next_action_at = none ∧
        r'.cooldown_seconds = none)) := by
  refine ⟨fun s h => cooldownLoop_sleep_le env taskId username i total remaining
    st s h, cooldownLoop_db env taskId username i total remaining st,
    fun hrem hk => ?_⟩
  obtain ⟨h1, h2, h3, -⟩ := cooldownLoop_cancel_immediate env taskId username i
    total remaining st r hrem hk hr
  exact ⟨h1, h2, h3⟩

/-- An environment in which the external cancel write has already landed. -/
def c2env : UploadEnv :=
  { hashName := fun s => s, get_download_link := fun _ => some "u",
    dl := fun _ => DlOutcome.complete 7, upload_ok := fun _ => true,
    cooldown := fun _ => 25, extCancel := fun _ => true }

def c2_row : TaskRecord :=
  { id := "t1", task_type := "upload", status := "running",
    account_username := some "alice", message := none, progress := 50,
    total_items := 2, current_item := none, next_action_at := some 700,
    cooldown_seconds := some 25, created_at := 0 }

def c2_state : WorkerState :=
  { db := { publicationhistory := [("alice", "v1")], videos := [] }, fs := [],
    store := [c2_row], polls := 0, now := 0 }

/-- Witness for C2: the cooldown theorem applied to a concrete 25-second
cooldown with the cancel write landed before the first tick. -/
theorem cooldown_tick_poll_cancel_witness :
    lookupTask c2_state.store "t1" = some c2_row ∧
    ((∀ s, Event.sleep s ∈ (cooldownLoop c2env "t1" "alice" 1 2 25
      c2_state).2.1 → s ≤ 10) ∧
    (cooldownLoop c2env "t1" "alice" 1 2 25 c2_state).1.db = c2_state.db ∧
    (0 < 25 → c2env.extCancel c2_state.polls = true →
      (cooldownLoop c2env "t1" "alice" 1 2 25 c2_state).2.2 = true ∧
      (∀ s, Event.sleep s ∉ (cooldownLoop c2env "t1" "alice" 1 2 25
        c2_state).2.1) ∧
      (∃ r', lookupTask (cooldownLoop c2env "t1" "alice" 1 2 25
          c2_state).1.store "t1" = some r' ∧
        r'.status = "cancelled" ∧ r'.next_action_at = none ∧
        r'.cooldown_seconds = none))) :=
  ⟨rfl, cooldown_tick_poll_cancel c2env "t1" "alice" 1 2 25 c2_state c2_row rfl⟩

/-- C4 counterexample: in a one-video run whose download link resolution
fails, the stored progress reaches exactly 100 while the terminal status is
failed, refuting the claim that progress equals 100 only at terminal success
(the value 100 is also stored while the task is still running on the last
item). -/
theorem progress_100_without_success :
    (lookupTask (process_video_with_progress c3env "t1" "alice" ["v"]
        st_empty).st.store "t1").map (fun r => (r.progress, r.status)) =
      some (100, "failed") := by
  decide

/-- C4 (amended): during and after the processing of item i of total, every
progress value the orchestrator stores for the task equals
floor(i * 100 / total); in particular the value after the iteration is
i * 100 / total, reaching 100 on the final item regardless of the eventual
terminal status. -/
theorem progress_after_item_floor (env : UploadEnv) (taskId username : String)
    (i total : Nat) (video : String) (st : WorkerState)
    (hnc : ∀ k, env.extCancel k = false) (htot : 0 < total)
    (hrun : RunningStore st.store taskId) :
    ∃ r', lookupTask (processOneVideo env taskId username i total video
        st).st.store taskId = some r' ∧ r'.progress = i * 100 / total := by
  obtain ⟨-, ⟨r', h1, -, h3⟩, -⟩ := processOneVideo_nocancel env taskId username
    i total video st hnc htot hrun
  exact ⟨r', h1, h3⟩

/-- Witness for C4: the floor-progress theorem applied to item 1 of 2 in a
concrete world; the stored progress is 50. -/
theorem progress_after_item_floor_witness :
    (∀ k, c8env.extCancel k = false) ∧ 0 < 2 ∧
    RunningStore c8_state.store "t1" ∧
    (∃ r', lookupTask (processOneVideo c8env "t1" "alice" 1 2 "v1"
        c8_state).st.store "t1" = some r' ∧ r'.progress = 1 * 100 / 2) :=
  ⟨fun _ => rfl, by decide, ⟨c8_row, rfl, rfl⟩,
   progress_after_item_floor c8env "t1" "alice" 1 2 "v1" c8_state
     (fun _ => rfl) (by decide) ⟨c8_row, rfl, rfl⟩⟩

/-- C5 counterexample: a run triggered with an empty video list is not
rejected: the task record enters the running state and the run completes
with terminal status failed over zero items. -/
theorem empty_run_enters_running_and_fails :
    Event.statusWrite "running" ∈ (process_video_with_progress c3env "t1"
      "alice" [] st_empty).events ∧
    (lookupTask (process_video_with_progress c3env "t1" "alice" []
        st_empty).st.store "t1").map (fun r => r.status) = some "failed" := by
  decide

/-- C5 (amended): an empty video list is not rejected before the state
machine starts: for every environment and initial world, the run inserts the
task row with status running, processes zero items with zero successes and
zero failures, and transitions to terminal status failed. -/
theorem empty_run_not_rejected (env : UploadEnv) (taskId username : String)
    (st0 : WorkerState) :
    (process_video_with_progress env taskId username [] st0).successCount = 0 ∧
    (process_video_with_progress env taskId username [] st0).failedCount = 0 ∧
    (process_video_with_progress env taskId username [] st0).cancelled = false ∧
    Event.statusWrite "running" ∈
      (process_video_with_progress env taskId username [] st0).events ∧
    (∃ r, lookupTask (process_video_with_progress env taskId username []
        st0).st.store taskId = some r ∧ r.status = "failed") := by
  obtain ⟨r1, hr1, -, -, hstat, -⟩ := lookupTask_log_task st0.store st0.now taskId
    "upload" "running" (some username)
    (some s!"Starting upload of {([] : List String).length} videos to @{username}")
    (some 0) (some ([] : List String).length) none none
  unfold process_video_with_progress runVideos
  refine ⟨rfl, rfl, rfl, List.mem_cons_self _ _, ?_⟩
  simp only [Bool.false_eq_true, if_false, lookupTask_update_task_status]
  rw [hr1]
  exact ⟨_, rfl, rfl⟩
